import Mathlib

/-!
Shallow embedding of `app.py` (multi-site salon booking app: Flask routes,
Supabase-backed appointment CRUD, per-weekday slot generation, admin session
and CSRF gating, transactional email helpers), together with theorems about
the embedded definitions.

The remote database table is modelled as a `List Booking`; each `sb_*` helper
becomes a pure function from the table to the updated table plus its return
value.  Machine-level details that the claims depend on are modelled
faithfully: CPython `strptime` field regexes for `%Y-%m-%d` and `%I:%M %p`,
`strftime` zero padding plus `lstrip("0")`, Python truthiness of strings and
of `dict.get` results, and the proleptic-Gregorian `date.weekday()`
computation (Monday = 0).
-/

namespace HairDaze

/-- Python `str.strip()` with no argument: remove leading and trailing
whitespace.  (`Char.isWhitespace` covers the ASCII whitespace characters,
which covers every input the application produces.) -/
def pystrip (s : String) : String :=
  String.mk (((s.data.dropWhile Char.isWhitespace).reverse.dropWhile
    Char.isWhitespace).reverse)

/-- Python `a or b` on two optional strings as produced by `dict.get` /
`request.form.get`: the first operand that is present and non-empty, else
the empty string. -/
def firstTruthy (a b : Option String) : String :=
  match a with
  | some s => if s ≠ "" then s else match b with
    | some t => if t ≠ "" then t else ""
    | none => ""
  | none => match b with
    | some t => if t ≠ "" then t else ""
    | none => ""

/-- Python `x or None` on an optional string: `None` and `""` collapse to
`None`, any other string is kept. -/
def orNone (a : Option String) : Option String :=
  match a with
  | some s => if s = "" then none else some s
  | none => none

/-- The numeric value of a decimal digit character, `none` otherwise. -/
def pyDigit (c : Char) : Option Nat :=
  if c.isDigit then some (c.toNat - 48) else none

/-! ### `strptime` field parsers

CPython `_strptime` compiles each format directive to a regex:
`%I` and `%m` to `1[0-2]|0[1-9]|[1-9]`, `%M` to `[0-5]\d|\d`,
`%d` to `3[01]|[12]\d|0[1-9]|[1-9]`, `%Y` to `\d\d\d\d`, `%p` to a
case-insensitive `AM|PM`, and a whitespace run in the format to `\s+`.
Since in both formats used by the program every numeric field is followed
by a non-digit literal, the regex backtracking behaviour is equivalent to:
prefer the valid two-digit form, else take one digit. -/

/-- Regex `1[0-2]|0[1-9]|[1-9]` (used for `%I` and `%m`): a value in 1..12,
preferring two digits.  Returns the value and the remaining characters. -/
def parseNum1to12 : List Char → Option (Nat × List Char)
  | [] => none
  | c1 :: rest =>
    match pyDigit c1 with
    | none => none
    | some d1 =>
      match rest with
      | c2 :: rest2 =>
        match pyDigit c2 with
        | some d2 =>
          if (d1 = 1 ∧ d2 ≤ 2) ∨ (d1 = 0 ∧ 1 ≤ d2) then some (10 * d1 + d2, rest2)
          else if 1 ≤ d1 then some (d1, c2 :: rest2)
          else none
        | none => if 1 ≤ d1 then some (d1, c2 :: rest2) else none
      | [] => if 1 ≤ d1 then some (d1, []) else none

/-- Regex `[0-5]\d|\d` (used for `%M`): a minute value, preferring the
two-digit form `00`..`59`. -/
def parseMinute : List Char → Option (Nat × List Char)
  | [] => none
  | c1 :: rest =>
    match pyDigit c1 with
    | none => none
    | some d1 =>
      match rest with
      | c2 :: rest2 =>
        match pyDigit c2 with
        | some d2 => if d1 ≤ 5 then some (10 * d1 + d2, rest2) else some (d1, c2 :: rest2)
        | none => some (d1, c2 :: rest2)
      | [] => some (d1, [])

/-- Regex `3[01]|[12]\d|0[1-9]|[1-9]` (used for `%d`): a day value in 1..31,
preferring two digits. -/
def parseDayNum : List Char → Option (Nat × List Char)
  | [] => none
  | c1 :: rest =>
    match pyDigit c1 with
    | none => none
    | some d1 =>
      match rest with
      | c2 :: rest2 =>
        match pyDigit c2 with
        | some d2 =>
          if (d1 = 3 ∧ d2 ≤ 1) ∨ (1 ≤ d1 ∧ d1 ≤ 2) ∨ (d1 = 0 ∧ 1 ≤ d2) then
            some (10 * d1 + d2, rest2)
          else if 1 ≤ d1 then some (d1, c2 :: rest2)
          else none
        | none => if 1 ≤ d1 then some (d1, c2 :: rest2) else none
      | [] => if 1 ≤ d1 then some (d1, []) else none

/-- Regex `\d\d\d\d` (used for `%Y`): exactly four digits. -/
def parseYear4 : List Char → Option (Nat × List Char)
  | c1 :: c2 :: c3 :: c4 :: rest =>
    match pyDigit c1, pyDigit c2, pyDigit c3, pyDigit c4 with
    | some a, some b, some c, some d => some (1000 * a + 100 * b + 10 * c + d, rest)
    | _, _, _, _ => none
  | _ => none

/-- Regex `\s+` for a whitespace run in the format: at least one whitespace
character, then any further whitespace is consumed. -/
def parseWs1 : List Char → Option (List Char)
  | c :: rest => if c.isWhitespace then some (rest.dropWhile Char.isWhitespace) else none
  | [] => none

/-- Case-insensitive `AM|PM` (the `%p` directive): returns `true` for PM. -/
def parseAmPm : List Char → Option (Bool × List Char)
  | c1 :: c2 :: rest =>
    if c1.toLower = 'a' ∧ c2.toLower = 'm' then some (false, rest)
    else if c1.toLower = 'p' ∧ c2.toLower = 'm' then some (true, rest)
    else none
  | _ => none

/-- Embeds `datetime.strptime(s, "%I:%M %p")`, reduced to minutes after midnight;
`none` models the `ValueError` raised on a non-matching string (strptime
also requires that no unconverted data remain). -/
def parseTime12 (s : String) : Option Nat :=
  match parseNum1to12 s.data with
  | none => none
  | some (h12, r1) =>
    match r1 with
    | ':' :: r2 =>
      match parseMinute r2 with
      | none => none
      | some (mm, r3) =>
        match parseWs1 r3 with
        | none => none
        | some r4 =>
          match parseAmPm r4 with
          | some (isPM, []) =>
            let h24 := if isPM then (if h12 = 12 then 12 else h12 + 12)
                       else (if h12 = 12 then 0 else h12)
            some (h24 * 60 + mm)
          | _ => none
    | _ => none

/-- Two-digit zero padding, as in `strftime` numeric directives. -/
def pad2 (n : Nat) : String := if n < 10 then "0" ++ toString n else toString n

/-- Python `s.lstrip("0")`: remove every leading `'0'` character. -/
def lstrip0 (s : String) : String := String.mk (s.data.dropWhile (fun c => c = '0'))

/-- Embeds `dt.strftime("%I:%M %p").lstrip("0")` for a datetime `m` minutes after
the epoch used by `strptime` (midnight of 1900-01-01): 12-hour clock with
zero-padded fields, then all leading `'0'` characters stripped. -/
def formatTime12 (m : Nat) : String :=
  let h24 := m / 60 % 24
  let mins := m % 60
  let h12 := if h24 % 12 = 0 then 12 else h24 % 12
  let ampm := if h24 < 12 then "AM" else "PM"
  lstrip0 (pad2 h12 ++ ":" ++ pad2 mins ++ " " ++ ampm)

/-! ### Dates and `date.weekday()` -/

/-- Gregorian leap year, as in Python `calendar.isleap` / `datetime`. -/
def isLeap (y : Nat) : Bool := y % 4 = 0 && (y % 100 ≠ 0 || y % 400 = 0)

/-- Length of month `m` (1..12) of year `y`. -/
def daysInMonth (y m : Nat) : Nat :=
  if m = 2 then (if isLeap y then 29 else 28)
  else if m = 4 ∨ m = 6 ∨ m = 9 ∨ m = 11 then 30
  else 31

/-- Embeds `datetime.strptime(s, "%Y-%m-%d")` reduced to the (year, month, day)
triple; `none` models `ValueError` (regex mismatch, trailing data, or the
`datetime` constructor rejecting year 0 or an out-of-range day). -/
def parseDateYMD (s : String) : Option (Nat × Nat × Nat) :=
  match parseYear4 s.data with
  | none => none
  | some (y, r1) =>
    match r1 with
    | '-' :: r2 =>
      match parseNum1to12 r2 with
      | none => none
      | some (mo, r3) =>
        match r3 with
        | '-' :: r4 =>
          match parseDayNum r4 with
          | some (d, []) =>
            if 1 ≤ y ∧ d ≤ daysInMonth y mo then some (y, mo, d) else none
          | _ => none
        | _ => none
    | _ => none

/-- Days in all years before year `y` (proleptic Gregorian), as in
`datetime.date.toordinal`. -/
def daysBeforeYear (y : Nat) : Nat :=
  let n := y - 1
  365 * n + n / 4 - n / 100 + n / 400

/-- Days in the months of year `y` strictly before month `m`. -/
def daysBeforeMonth (y m : Nat) : Nat :=
  ((List.range (m - 1)).map (fun i => daysInMonth y (i + 1))).sum

/-- Embeds `date(y, m, d).toordinal()`: 0001-01-01 is day 1. -/
def toOrdinal (y m d : Nat) : Nat := daysBeforeYear y + daysBeforeMonth y m + d

/-- Embeds `date(y, m, d).weekday()`: Monday = 0 .. Sunday = 6. -/
def pyWeekday (y m d : Nat) : Nat := (toOrdinal y m d + 6) % 7

/-! ### Hours table and slot generation -/

/-- Embeds `HOURS_BY_WEEKDAY`: opening and closing time strings per weekday index
(Monday = 0); only Tuesday..Saturday are present. -/
def HOURS_BY_WEEKDAY (wd : Nat) : Option (String × String) :=
  if wd = 1 then some ("10:00 AM", "7:00 PM")
  else if wd = 2 then some ("2:00 PM", "7:00 PM")
  else if wd = 3 then some ("10:00 AM", "7:00 PM")
  else if wd = 4 then some ("9:00 AM", "2:00 PM")
  else if wd = 5 then some ("8:00 AM", "2:00 PM")
  else none

/-- Iteration core of the `while start_dt < end_dt` loop of
`generate_time_slots`, with an explicit fuel bound on the number of
iterations so that the recursion is structural (and hence reduces in the
kernel).  `slotsFrom_unfold` below recovers the exact loop shape. -/
def slotsFromGo (e i : Nat) : Nat → Nat → List Nat
  | 0, _ => []
  | fuel + 1, s => if 0 < i ∧ s < e then s :: slotsFromGo e i fuel (s + i) else []

/-- The `while start_dt < end_dt` loop of `generate_time_slots`, on minute
values: collect `s, s + i, s + 2i, ...` while below `e`.  The source loop
would not terminate for `interval_minutes <= 0`; the program only ever
calls it with 30, and the `0 < i` guard makes the loop body reachable only
when each iteration strictly shrinks `e - s`, so `e - s` bounds the number
of iterations. -/
def slotsFrom (s e i : Nat) : List Nat := slotsFromGo e i (e - s) s

/-- Embeds `generate_time_slots(start, end, interval_minutes)`: parse both bounds
with `%I:%M %p` (a failure raises, modelled by `none`), walk in
`interval`-minute steps, and format each step with `%I:%M %p` stripped of
leading zeros. -/
def generate_time_slots (start fin : String) (interval : Nat) : Option (List String) :=
  match parseTime12 start, parseTime12 fin with
  | some s, some e => some ((slotsFrom s e interval).map formatTime12)
  | _, _ => none

/-! ### The appointments table and the `sb_*` helpers -/

/-- One row of the Supabase appointments table. -/
structure Booking where
  id : Nat
  date : String
  time : String
  name : String
  service : String
  email : Option String
  status : String
deriving DecidableEq, Repr

/-- The appointments table, as the list of its rows. -/
abbrev DB := List Booking

/-- Embeds `sb_slot_taken(date_str, time_str)`: does a row with this date and time
and status `"Scheduled"` exist? -/
def sb_slot_taken (db : DB) (date_str time_str : String) : Bool :=
  db.any (fun b => b.date = date_str && b.time = time_str && b.status = "Scheduled")

/-- Embeds `sb_insert_booking(...)`: append a row whose email is `email or None`
and whose status is `"Scheduled"`.  `newId` stands for the id the database
assigns to the inserted row. -/
def sb_insert_booking (db : DB) (date_str time_str name service : String)
    (email : Option String) (newId : Nat) : DB :=
  db ++ [{ id := newId, date := date_str, time := time_str, name := name,
           service := service, email := orNone email, status := "Scheduled" }]

/-- Embeds `_fetch_booking(booking_id)`: the first row with this id, if any. -/
def fetch_booking (db : DB) (booking_id : Nat) : Option Booking :=
  db.find? (fun b => b.id = booking_id)

/-- The row update performed by `sb_cancel_by_details` / `sb_cancel_by_id`:
set status `"Cancelled"` on rows matching the filters (which always include
`status = "Scheduled"`). -/
def cancelRow (p : Booking → Bool) (b : Booking) : Booking :=
  if p b && b.status = "Scheduled" then { b with status := "Cancelled" } else b

/-- Embeds `sb_cancel_by_details(...)`: set `"Cancelled"` on every `"Scheduled"`
row matching date, time, name and service; return the number of updated
rows (the length of `res.data`). -/
def sb_cancel_by_details (db : DB) (date_str time_str name service : String) : Nat × DB :=
  let p := fun (b : Booking) =>
    b.date = date_str && b.time = time_str && b.name = name && b.service = service
  (db.countP (fun b => p b && b.status = "Scheduled"), db.map (cancelRow p))

/-- Embeds `sb_cancel_by_id(booking_id)`: set `"Cancelled"` on the `"Scheduled"`
row with this id, re-fetch the row, and report
`changed = bool(row and row["status"] == "Cancelled")`. -/
def sb_cancel_by_id (db : DB) (booking_id : Nat) : (Bool × Option Booking) × DB :=
  let db1 := db.map (cancelRow (fun b => b.id = booking_id))
  let row := fetch_booking db1 booking_id
  let changed := match row with
    | some r => r.status = "Cancelled"
    | none => false
  ((changed, row), db1)

/-- Embeds `sb_complete_by_id(booking_id)`: set `"Completed"` on the `"Scheduled"`
row with this id, re-fetch the row, and report
`changed = bool(row and row["status"] == "Completed")`. -/
def sb_complete_by_id (db : DB) (booking_id : Nat) : (Bool × Option Booking) × DB :=
  let db1 := db.map (fun b =>
    if b.id = booking_id && b.status = "Scheduled" then { b with status := "Completed" } else b)
  let row := fetch_booking db1 booking_id
  let changed := match row with
    | some r => r.status = "Completed"
    | none => false
  ((changed, row), db1)

/-- Embeds `sb_update_booking(booking_id, name, service, date_str, time_str)`:
refuse when a different `"Scheduled"` row occupies the new date and time;
otherwise overwrite name, service, date and time of the row with this id
and return the re-fetched row. -/
def sb_update_booking (db : DB) (booking_id : Nat) (name service date_str time_str : String) :
    (Option Booking × Option String) × DB :=
  let clash := db.any (fun b =>
    b.date = date_str && b.time = time_str && b.status = "Scheduled" && b.id ≠ booking_id)
  if clash then ((none, some "That time is already booked"), db)
  else
    let db1 := db.map (fun b =>
      if b.id = booking_id then
        { b with name := name, service := service, date := date_str, time := time_str }
      else b)
    ((fetch_booking db1 booking_id, none), db1)

/-- Lexicographic strict order on character lists (Postgres text comparison
as used by the `gte`/`lte`/`order` query filters on ISO date strings). -/
def chListLt : List Char → List Char → Bool
  | [], [] => false
  | [], _ :: _ => true
  | _ :: _, [] => false
  | a :: as, b :: bs => if a < b then true else if b < a then false else chListLt as bs

/-- Strict lexicographic order on strings. -/
def strLt (a b : String) : Bool := chListLt a.data b.data

/-- Embeds `sb_load_appointments(start, end, status)`: filter by date range, by
status unless `status == "all"`, and order by date then time ascending. -/
def sb_load_appointments (db : DB) (start fin : Option String) (status : String) : List Booking :=
  let q1 : DB := match start with
    | some s => db.filter (fun b => !(strLt b.date s))
    | none => db
  let q2 : DB := match fin with
    | some e => q1.filter (fun b => !(strLt e b.date))
    | none => q1
  let q3 : DB := if status ≠ "all" then q2.filter (fun b => b.status = "Scheduled") else q2
  q3.mergeSort (fun (a b : Booking) =>
    if strLt a.date b.date then true
    else if strLt b.date a.date then false
    else !(strLt b.time a.time))

/-! ### Routes: availability and booking -/

/-- Embeds `GET /available_times`: with no (or empty) `date` query argument, or an
argument `strptime` rejects, or a weekday absent from `HOURS_BY_WEEKDAY`,
respond `{"times": []}`; otherwise generate the 30-minute slots for that
weekday and drop those whose time string appears on a `"Scheduled"` row of
that date.  The outer `none` models an unhandled exception (unreachable:
the hours table entries always parse). -/
def available_times (db : DB) (dateArg : Option String) : Option (List String) :=
  match dateArg with
  | none => some []
  | some ds =>
    if ds = "" then some []
    else
      match parseDateYMD ds with
      | none => some []
      | some (y, m, d) =>
        match HOURS_BY_WEEKDAY (pyWeekday y m d) with
        | none => some []
        | some (start_time, end_time) =>
          match generate_time_slots start_time end_time 30 with
          | none => none
          | some all_slots =>
            let booked := (db.filter (fun b =>
              b.date = ds && b.status = "Scheduled")).map Booking.time
            some (all_slots.filter (fun s => !(booked.contains s)))

/-- The form fields `POST /book` reads (each `request.form.get` result). -/
structure BookForm where
  date : Option String
  appointment_date : Option String
  time : Option String
  appointment_time : Option String
  name : Option String
  client_name : Option String
  service : Option String
  email : Option String
  client_email : Option String

/-- Outcome of `POST /book`. -/
inductive BookResp where
  | missingFields
  | alreadyBooked
  | serverError
  | confirmation (date time name service : String)
deriving DecidableEq, Repr

/-- Embeds `POST /book`: trim the (fallback-resolved) form fields; 400 when date,
time, name or service is empty; 400 when the slot already has a
`"Scheduled"` row; 500 when the insert raises (`insertRaises` models that);
otherwise insert the row, start the confirmation-email thread, and render
the confirmation page.  The `Bool` component records whether the email
thread was started. -/
def book_post (form : BookForm) (db : DB) (insertRaises : Bool) (newId : Nat) :
    BookResp × DB × Bool :=
  let date_str := pystrip (firstTruthy form.date form.appointment_date)
  let time_str := pystrip (firstTruthy form.time form.appointment_time)
  let name := pystrip (firstTruthy form.name form.client_name)
  let service := pystrip (firstTruthy form.service none)
  let email := pystrip (firstTruthy form.email form.client_email)
  if date_str = "" ∨ time_str = "" ∨ name = "" ∨ service = "" then
    (.missingFields, db, false)
  else if sb_slot_taken db date_str time_str then
    (.alreadyBooked, db, false)
  else if insertRaises then
    (.serverError, db, false)
  else
    (.confirmation date_str time_str name service,
     sb_insert_booking db date_str time_str name service (some email) newId, true)

/-- Embeds `POST /cancel`: cancel by details and render `cancelled.html` with a
found / not-found message (`true` = at least one row was cancelled). -/
def cancel_public (db : DB) (date_str time_str name service : String) : Bool × DB :=
  let (changed, db1) := sb_cancel_by_details db date_str time_str name service
  (changed ≠ 0, db1)

/-! ### Session, CSRF and the admin endpoints -/

/-- The Flask session fields the admin paths read. -/
structure SessionData where
  user_id : Option Int
  csrf : Option String

/-- Python truthiness of `session.get("user_id")`: present and non-zero. -/
def sessionLoggedIn (sess : SessionData) : Bool :=
  match sess.user_id with
  | some n => n ≠ 0
  | none => false

/-- Outcome of an admin request. -/
inductive AdminResp where
  | redirectLogin
  | csrfForbidden
  | okChanged (changed : Bool)
  | badRequest (message : String)
  | conflict (message : String)
  | okBooking (row : Option Booking)
  | page (rows : List Booking)
deriving Repr

/-- Embeds `GET /admin` under `@requires_login`: redirect to the login page unless
the session holds a truthy `user_id`; otherwise render the table returned
by `sb_load_appointments` (here with the `view=today`/`status` defaults
resolved by the caller). -/
def admin_get (sess : SessionData) (db : DB) (start : Option String) (status : String) :
    AdminResp :=
  if !sessionLoggedIn sess then .redirectLogin
  else .page (sb_load_appointments db start none status)

/-- Embeds `POST /admin/api/cancel/<id>` under `@requires_login` and
`@requires_csrf`: the login guard runs first, then the CSRF header must
equal the session token; only then is `sb_cancel_by_id` executed, and the
cancellation-email thread is started iff `changed and row`.  Returns the
response, the resulting table, and the row handed to the email thread
(`none` when no thread is started). -/
def admin_api_cancel (sess : SessionData) (csrfHeader : Option String) (booking_id : Nat)
    (db : DB) : AdminResp × DB × Option Booking :=
  if !sessionLoggedIn sess then (.redirectLogin, db, none)
  else if csrfHeader ≠ sess.csrf then (.csrfForbidden, db, none)
  else
    let ((changed, row), db1) := sb_cancel_by_id db booking_id
    (.okChanged changed, db1, if changed && row.isSome then row else none)

/-- Embeds `POST /admin/api/complete/<id>`: as `admin_api_cancel`, with
`sb_complete_by_id` and the thanks-email thread. -/
def admin_api_complete (sess : SessionData) (csrfHeader : Option String) (booking_id : Nat)
    (db : DB) : AdminResp × DB × Option Booking :=
  if !sessionLoggedIn sess then (.redirectLogin, db, none)
  else if csrfHeader ≠ sess.csrf then (.csrfForbidden, db, none)
  else
    let ((changed, row), db1) := sb_complete_by_id db booking_id
    (.okChanged changed, db1, if changed && row.isSome then row else none)

/-- The JSON body fields `POST /admin/api/update/<id>` reads. -/
structure UpdatePayload where
  name : Option String
  service : Option String
  date : Option String
  time : Option String

/-- Embeds `POST /admin/api/update/<id>`: after the login and CSRF guards, trim the
JSON fields, 400 on any empty one, then `sb_update_booking`; a clash
reports 409 with its message, success returns the updated row. -/
def admin_api_update (sess : SessionData) (csrfHeader : Option String) (booking_id : Nat)
    (payload : UpdatePayload) (db : DB) : AdminResp × DB :=
  if !sessionLoggedIn sess then (.redirectLogin, db)
  else if csrfHeader ≠ sess.csrf then (.csrfForbidden, db)
  else
    let name := pystrip (firstTruthy payload.name none)
    let service := pystrip (firstTruthy payload.service none)
    let new_date := pystrip (firstTruthy payload.date none)
    let new_time := pystrip (firstTruthy payload.time none)
    if name = "" ∨ service = "" ∨ new_date = "" ∨ new_time = "" then
      (.badRequest "Missing fields", db)
    else
      let ((row, err), db1) := sb_update_booking db booking_id name service new_date new_time
      match err with
      | some msg => (.conflict msg, db1)
      | none => (.okBooking row, db1)

/-! ### Email helpers -/

/-- The environment-derived configuration the email helpers read. -/
structure EmailCfg where
  emailEnabled : Bool
  smtpHost : Option String
  smtpUser : Option String
  smtpPass : Option String
  fromEmail : Option String
  sendCustomerNotifications : Bool
  salonName : String
  salonAddress : String

/-- Python truthiness of an optional string setting. -/
def cfgSet (o : Option String) : Bool :=
  match o with
  | some s => s ≠ ""
  | none => false

/-- The appointment dict handed to the send functions. -/
structure ApptInfo where
  name : Option String
  email : Option String
  service : Option String
  date : Option String
  time : Option String

/-- Embeds `send_email(to_email, subject, body)`: `False` without any SMTP traffic
when emailing is disabled, the SMTP settings are incomplete, or the
recipient is falsy; otherwise the message is sent.  The `Option` component
is the message handed to SMTP (`none` = no send attempted). -/
def send_email (cfg : EmailCfg) (to_email : Option String) (subject body : String) :
    Bool × Option (String × String × String) :=
  if !(cfg.emailEnabled && cfgSet cfg.smtpHost && cfgSet cfg.smtpUser && cfgSet cfg.smtpPass
        && cfgSet cfg.fromEmail) || !cfgSet to_email then
    (false, none)
  else
    (true, some (to_email.getD "", subject, body))

/-- Python `f"{x}"` on an optional string: `None` prints as `"None"`. -/
def fstr (o : Option String) : String :=
  match o with
  | some s => s
  | none => "None"

/-- Embeds `_fmt_appt_line(appt)`. -/
def fmt_appt_line (appt : ApptInfo) : String :=
  fstr appt.date ++ " at " ++ fstr appt.time ++ " — " ++ fstr appt.service

/-- Embeds `send_booking_confirmation(appt)`: `False` when customer notifications
are off or the appointment email is empty after stripping; otherwise defer
to `send_email` with the confirmation subject and body. -/
def send_booking_confirmation (cfg : EmailCfg) (appt : ApptInfo) :
    Bool × Option (String × String × String) :=
  if !cfg.sendCustomerNotifications then (false, none)
  else
    let email := pystrip (firstTruthy appt.email none)
    if email = "" then (false, none)
    else
      let name := firstTruthy appt.name (some "there")
      let subject := "Your " ++ cfg.salonName ++ " appointment is booked!"
      let body := String.intercalate "\n"
        ["Hi " ++ name ++ ",", "", "Thanks for booking with us. Here are your details:",
         "• " ++ fmt_appt_line appt, "",
         "If you need to make changes, just reply to this email.", "",
         "See you soon,", cfg.salonName, cfg.salonAddress]
      send_email cfg (some email) subject body

/-! ### `load_site`: the per-slug tenant configuration -/

/-- A row of the remote `businesses` table (fields `load_site` reads). -/
structure BizRow where
  id : Option Nat
  slug : String
  name : Option String
  tagline : Option String
  gradient_start : Option String
  gradient_end : Option String
  cta_text : Option String
  cta_url : Option String
  address : Option String
  phone : Option String
  email : Option String
  map_embed : Option String

/-- A row of the remote `services` table. -/
structure ServiceRow where
  business_id : Nat
  name : Option String
  description : Option String
  price : Option String
  sort_order : Int
  published : Bool
deriving DecidableEq, Repr

/-- A row of the remote `reviews` table. -/
structure ReviewRow where
  business_id : Nat
  text : Option String
  author : Option String
  stars : Option Nat
  sort_order : Int
  published : Bool
deriving DecidableEq, Repr

/-- A row of the remote `hero_images` table. -/
structure HeroRow where
  business_id : Nat
  filename : Option String
  sort_order : Int
  published : Bool
deriving DecidableEq, Repr

/-- The environment variables `load_site` and its fallbacks read. -/
structure SiteEnv where
  supabase_url : String
  SALON_NAME : Option String
  TAGLINE : Option String
  GRADIENT_START : Option String
  GRADIENT_END : Option String
  CTA_TEXT : Option String
  CTA_URL : Option String
  HERO_SUBTEXT : Option String
  HERO_IMAGES : Option String
  SALON_ADDRESS : Option String
  SALON_PHONE : Option String
  SALON_EMAIL : Option String
  FROM_EMAIL : Option String
  MAP_EMBED : Option String

/-- The dict `load_site` returns.  Note that it carries branding, hero
content, services, reviews and contact data — and no opening hours. -/
structure Site where
  slug : String
  brandName : String
  brandTagline : String
  gradientStart : String
  gradientEnd : String
  ctaText : String
  ctaUrl : String
  heroSubtext : String
  heroImages : List String
  services : List ServiceRow
  reviews : List ReviewRow
  contactAddress : String
  contactPhone : String
  contactEmail : String
  contactMapEmbed : String

/-- Embeds `biz.get(field) or fallback`: the business value when present and
non-empty, else the fallback. -/
def bizOr (biz : Option BizRow) (f : BizRow → Option String) (fallback : String) : String :=
  match biz with
  | some b =>
    match f b with
    | some s => if s ≠ "" then s else fallback
    | none => fallback
  | none => fallback

/-- Embeds `storage_public_url(path)`. -/
def storage_public_url (env : SiteEnv) (path : String) : String :=
  env.supabase_url ++ "/storage/v1/object/public/" ++ path

/-- Embeds `os.getenv("SALON_EMAIL", os.getenv("FROM_EMAIL") or "")`. -/
def envSalonEmail (env : SiteEnv) : String :=
  env.SALON_EMAIL.getD (firstTruthy env.FROM_EMAIL none)

/-- Embeds `load_site(slug)`: look up the business row by slug in the remote
`businesses` table, collect its published services, reviews and hero
images ordered by `sort_order`, and fall back to environment variables
field by field.  The remote tables are passed in as lists. -/
def load_site (businesses : List BizRow) (services : List ServiceRow)
    (reviews : List ReviewRow) (hero_images : List HeroRow) (env : SiteEnv)
    (slug : String) : Site :=
  let biz := (businesses.filter (fun b => b.slug = slug)).head?
  let business_id := biz.bind BizRow.id
  let svcs : List ServiceRow := match business_id with
    | some bid =>
      ((services.filter (fun r => r.business_id = bid && r.published)).mergeSort
        (fun a b => a.sort_order ≤ b.sort_order))
    | none => []
  let revs : List ReviewRow := match business_id with
    | some bid =>
      ((reviews.filter (fun r => r.business_id = bid && r.published)).mergeSort
        (fun a b => a.sort_order ≤ b.sort_order))
    | none => []
  let hero_db : List String := match business_id with
    | some bid =>
      (((hero_images.filter (fun r => r.business_id = bid && r.published)).mergeSort
          (fun a b => a.sort_order ≤ b.sort_order)).filter
        (fun r => firstTruthy r.filename none ≠ "")).map
        (fun r => storage_public_url env ("site-media/" ++ slug ++ "/" ++ r.filename.getD ""))
    | none => []
  let hero_urls := if hero_db = [] then
      (((env.HERO_IMAGES.getD "").splitOn ",").map pystrip).filter (fun s => s ≠ "")
    else hero_db
  { slug := slug
    brandName := bizOr biz BizRow.name (env.SALON_NAME.getD "HairDaze")
    brandTagline := bizOr biz BizRow.tagline (env.TAGLINE.getD "Where Style Meets Simplicity")
    gradientStart := bizOr biz BizRow.gradient_start (env.GRADIENT_START.getD "#ff9966")
    gradientEnd := bizOr biz BizRow.gradient_end (env.GRADIENT_END.getD "#66cccc")
    ctaText := bizOr biz BizRow.cta_text (env.CTA_TEXT.getD "Book Now")
    ctaUrl := bizOr biz BizRow.cta_url (env.CTA_URL.getD "/book")
    heroSubtext := env.HERO_SUBTEXT.getD
      "Color, cuts, and styling done with care—and on your schedule."
    heroImages := hero_urls
    services := svcs
    reviews := revs
    contactAddress := bizOr biz BizRow.address
      (env.SALON_ADDRESS.getD "414 E Walnut St, North Wales, PA 19454")
    contactPhone := bizOr biz BizRow.phone (env.SALON_PHONE.getD "")
    contactEmail := bizOr biz BizRow.email (envSalonEmail env)
    contactMapEmbed := bizOr biz BizRow.map_embed (env.MAP_EMBED.getD "") }

/-- The `GET /available_times` view as dispatched by Flask: the route reads
only the `date` query argument; a `site` query argument (the slug other
routes use to select the tenant) is ignored, and `load_site` is never
called on this path. -/
def available_times_route (db : DB) (_siteArg : Option String) (dateArg : Option String) :
    Option (List String) :=
  available_times db dateArg

/-- Strict comparison of two slot strings by their `%I:%M %p` time values
(false when either fails to parse). -/
def timeLt (a b : String) : Bool :=
  match parseTime12 a, parseTime12 b with
  | some x, some y => x < y
  | _, _ => false

/-! ## Lemmas about the slot loop -/

theorem slotsFromGo_fuel (e i : Nat) :
    ∀ f1 f2 s, e - s ≤ f1 → e - s ≤ f2 → slotsFromGo e i f1 s = slotsFromGo e i f2 s := by
  intro f1
  induction f1 with
  | zero =>
    intro f2 s h1 _h2
    cases f2 with
    | zero => rfl
    | succ m =>
      have hc : ¬ (0 < i ∧ s < e) := by omega
      simp [slotsFromGo, hc]
  | succ n ih =>
    intro f2 s h1 h2
    cases f2 with
    | zero =>
      have hc : ¬ (0 < i ∧ s < e) := by omega
      simp [slotsFromGo, hc]
    | succ m =>
      by_cases hc : 0 < i ∧ s < e
      · simp only [slotsFromGo, if_pos hc]
        rw [ih m (s + i) (by omega) (by omega)]
      · simp [slotsFromGo, hc]

/-- Embeds `slotsFrom` satisfies the one-step unfolding of the source loop. -/
theorem slotsFrom_unfold (s e i : Nat) :
    slotsFrom s e i = if 0 < i ∧ s < e then s :: slotsFrom (s + i) e i else [] := by
  unfold slotsFrom
  by_cases hc : 0 < i ∧ s < e
  · have h1 : e - s = (e - s - 1) + 1 := by omega
    rw [if_pos hc, h1]
    simp only [slotsFromGo, if_pos hc]
    rw [slotsFromGo_fuel e i (e - s - 1) (e - (s + i)) (s + i) (by omega) (by omega)]
  · rw [if_neg hc]
    cases hes : e - s with
    | zero => rfl
    | succ m => simp [slotsFromGo, hc]

theorem mem_slotsFrom30_aux :
    ∀ n s e t, e - s ≤ n →
      (t ∈ slotsFrom s e 30 ↔ s ≤ t ∧ t < e ∧ (t - s) % 30 = 0) := by
  intro n
  induction n with
  | zero =>
    intro s e t h
    rw [slotsFrom_unfold, if_neg (by omega)]
    simp only [List.not_mem_nil, false_iff]
    omega
  | succ n ih =>
    intro s e t h
    rw [slotsFrom_unfold]
    by_cases hse : s < e
    · rw [if_pos ⟨by omega, hse⟩, List.mem_cons, ih (s + 30) e t (by omega)]
      omega
    · rw [if_neg (by omega)]
      simp only [List.not_mem_nil, false_iff]
      omega

/-- Membership in the generated minute sequence: exactly the times between
the opening (inclusive) and closing (exclusive) bounds that lie on the
30-minute grid anchored at the opening time. -/
theorem mem_slotsFrom30 (s e t : Nat) :
    t ∈ slotsFrom s e 30 ↔ s ≤ t ∧ t < e ∧ (t - s) % 30 = 0 :=
  mem_slotsFrom30_aux (e - s) s e t le_rfl

theorem slotsFrom_head (s e i : Nat) (h : 0 < i ∧ s < e) :
    (slotsFrom s e i).head? = some s := by
  rw [slotsFrom_unfold, if_pos h]
  rfl

theorem chain_slotsFrom30_aux :
    ∀ n s e, e - s ≤ n → List.Chain' (fun a b => b = a + 30) (slotsFrom s e 30) := by
  intro n
  induction n with
  | zero =>
    intro s e h
    rw [slotsFrom_unfold, if_neg (by omega)]
    exact List.chain'_nil
  | succ n ih =>
    intro s e h
    rw [slotsFrom_unfold]
    by_cases hse : s < e
    · rw [if_pos ⟨by omega, hse⟩, List.chain'_cons']
      refine ⟨?_, ih (s + 30) e (by omega)⟩
      intro b hb
      by_cases hse2 : s + 30 < e
      · rw [slotsFrom_head (s + 30) e 30 ⟨by omega, hse2⟩] at hb
        simp only [Option.mem_def, Option.some.injEq] at hb
        omega
      · rw [slotsFrom_unfold, if_neg (by omega)] at hb
        simp at hb
    · rw [if_neg (by omega)]
      exact List.chain'_nil

/-- Consecutive generated minutes differ by exactly 30. -/
theorem chain_slotsFrom30 (s e : Nat) :
    List.Chain' (fun a b => b = a + 30) (slotsFrom s e 30) :=
  chain_slotsFrom30_aux (e - s) s e le_rfl

/-- The generated minute sequence is strictly increasing. -/
theorem pairwise_lt_slotsFrom30 (s e : Nat) :
    List.Pairwise (· < ·) (slotsFrom s e 30) := by
  have h2 : List.Chain' (· < ·) (slotsFrom s e 30) :=
    List.Chain'.imp (fun a b hab => by omega) (chain_slotsFrom30 s e)
  exact List.chain'_iff_pairwise.mp h2

/-- A date string accepted by `strptime("%Y-%m-%d")` is non-empty. -/
theorem parseDateYMD_ne_empty {ds : String} {x : Nat × Nat × Nat}
    (h : parseDateYMD ds = some x) : ds ≠ "" := by
  intro he
  subst he
  exact Option.noConfusion ((rfl : parseDateYMD "" = none) ▸ h)

/-! ## C2: slot generation over the hours table -/

/-- C2: for every weekday with an entry `(s, e)` in the hours table, both
bounds parse under `%I:%M %p`, and `generate_time_slots(s, e, 30)` is the
formatting of the minute sequence that starts at the opening time, steps
by exactly 30 minutes, contains exactly the grid times `t` with
`s <= t < e`, never contains the closing time, and is strictly
increasing. -/
theorem C2_generate_time_slots (wd : Nat) (st en : String)
    (h : HOURS_BY_WEEKDAY wd = some (st, en)) :
    ∃ s e : Nat, parseTime12 st = some s ∧ parseTime12 en = some e ∧
      generate_time_slots st en 30 = some ((slotsFrom s e 30).map formatTime12) ∧
      (slotsFrom s e 30).head? = some s ∧
      List.Chain' (fun a b => b = a + 30) (slotsFrom s e 30) ∧
      (∀ t, t ∈ slotsFrom s e 30 ↔ s ≤ t ∧ t < e ∧ (t - s) % 30 = 0) ∧
      e ∉ slotsFrom s e 30 ∧
      List.Pairwise (· < ·) (slotsFrom s e 30) := by
  unfold HOURS_BY_WEEKDAY at h
  split_ifs at h
  all_goals
    simp only [Option.some.injEq, Prod.mk.injEq] at h
    obtain ⟨hst, hen⟩ := h
    subst hst
    subst hen
  · exact ⟨600, 1140, rfl, rfl, rfl, rfl, chain_slotsFrom30 600 1140,
      mem_slotsFrom30 600 1140, by simp only [mem_slotsFrom30]; omega,
      pairwise_lt_slotsFrom30 600 1140⟩
  · exact ⟨840, 1140, rfl, rfl, rfl, rfl, chain_slotsFrom30 840 1140,
      mem_slotsFrom30 840 1140, by simp only [mem_slotsFrom30]; omega,
      pairwise_lt_slotsFrom30 840 1140⟩
  · exact ⟨600, 1140, rfl, rfl, rfl, rfl, chain_slotsFrom30 600 1140,
      mem_slotsFrom30 600 1140, by simp only [mem_slotsFrom30]; omega,
      pairwise_lt_slotsFrom30 600 1140⟩
  · exact ⟨540, 840, rfl, rfl, rfl, rfl, chain_slotsFrom30 540 840,
      mem_slotsFrom30 540 840, by simp only [mem_slotsFrom30]; omega,
      pairwise_lt_slotsFrom30 540 840⟩
  · exact ⟨480, 840, rfl, rfl, rfl, rfl, chain_slotsFrom30 480 840,
      mem_slotsFrom30 480 840, by simp only [mem_slotsFrom30]; omega,
      pairwise_lt_slotsFrom30 480 840⟩

/-- Witness for C2 at the Tuesday entry of the hours table. -/
theorem C2_generate_time_slots_witness :
    ∃ s e : Nat, parseTime12 "10:00 AM" = some s ∧ parseTime12 "7:00 PM" = some e ∧
      generate_time_slots "10:00 AM" "7:00 PM" 30 = some ((slotsFrom s e 30).map formatTime12) ∧
      (slotsFrom s e 30).head? = some s ∧
      List.Chain' (fun a b => b = a + 30) (slotsFrom s e 30) ∧
      (∀ t, t ∈ slotsFrom s e 30 ↔ s ≤ t ∧ t < e ∧ (t - s) % 30 = 0) ∧
      e ∉ slotsFrom s e 30 ∧
      List.Pairwise (· < ·) (slotsFrom s e 30) :=
  C2_generate_time_slots 1 "10:00 AM" "7:00 PM" rfl

/-! ## C1: the `/available_times` response -/

/-- The open-slot filter applied by `available_times` once the hours lookup
has succeeded. -/
theorem available_times_some (db : DB) (ds : String) (y m d : Nat) (st en : String)
    (allSlots : List String) (hp : parseDateYMD ds = some (y, m, d))
    (hh : HOURS_BY_WEEKDAY (pyWeekday y m d) = some (st, en))
    (hg : generate_time_slots st en 30 = some allSlots) :
    available_times db (some ds) =
      some (allSlots.filter (fun s =>
        !(((db.filter (fun b => b.date = ds && b.status = "Scheduled")).map
            Booking.time).contains s))) := by
  have hds : ds ≠ "" := parseDateYMD_ne_empty hp
  simp only [available_times, if_neg hds, hp, hh, hg]

/-- Pairwise `timeLt` holds on every full slot list the hours table can
produce. -/
theorem pairwise_timeLt_hours (wd : Nat) (st en : String) (allSlots : List String)
    (hh : HOURS_BY_WEEKDAY wd = some (st, en))
    (hg : generate_time_slots st en 30 = some allSlots) :
    List.Pairwise (fun a b => timeLt a b = true) allSlots := by
  unfold HOURS_BY_WEEKDAY at hh
  split_ifs at hh
  all_goals
    simp only [Option.some.injEq, Prod.mk.injEq] at hh
    obtain ⟨hst, hen⟩ := hh
    subst hst
    subst hen
  · obtain rfl := Option.some.inj
      (show some ((slotsFrom 600 1140 30).map formatTime12) = some allSlots from hg)
    decide
  · obtain rfl := Option.some.inj
      (show some ((slotsFrom 840 1140 30).map formatTime12) = some allSlots from hg)
    decide
  · obtain rfl := Option.some.inj
      (show some ((slotsFrom 600 1140 30).map formatTime12) = some allSlots from hg)
    decide
  · obtain rfl := Option.some.inj
      (show some ((slotsFrom 540 840 30).map formatTime12) = some allSlots from hg)
    decide
  · obtain rfl := Option.some.inj
      (show some ((slotsFrom 480 840 30).map formatTime12) = some allSlots from hg)
    decide

/-- C1: `GET /available_times` answers `{"times": []}` when the date
argument is absent or rejected by `strptime("%Y-%m-%d")` or falls on a
weekday without hours (precisely Monday and Sunday, indices 0 and 6);
otherwise it lists exactly the generated 30-minute slots that no
`"Scheduled"` booking of that date occupies, in strictly increasing time
order. -/
theorem C1_available_times (db : DB) (ds : String) :
    available_times db none = some [] ∧
    (parseDateYMD ds = none → available_times db (some ds) = some []) ∧
    (∀ y m d, parseDateYMD ds = some (y, m, d) →
      HOURS_BY_WEEKDAY (pyWeekday y m d) = none →
      available_times db (some ds) = some []) ∧
    (∀ wd, wd < 7 → (HOURS_BY_WEEKDAY wd = none ↔ wd = 0 ∨ wd = 6)) ∧
    (∀ y m d, pyWeekday y m d < 7) ∧
    (∀ y m d st en allSlots, parseDateYMD ds = some (y, m, d) →
      HOURS_BY_WEEKDAY (pyWeekday y m d) = some (st, en) →
      generate_time_slots st en 30 = some allSlots →
      ∃ ts : List String, available_times db (some ds) = some ts ∧
        (∀ slot, slot ∈ ts ↔ (slot ∈ allSlots ∧
          ¬ ∃ b ∈ db, b.date = ds ∧ b.time = slot ∧ b.status = "Scheduled")) ∧
        List.Pairwise (fun a b => timeLt a b = true) ts) := by
  refine ⟨rfl, ?_, ?_, ?_, ?_, ?_⟩
  · intro hp
    by_cases hds : ds = ""
    · subst hds; rfl
    · simp only [available_times, if_neg hds, hp]
  · intro y m d hp hh
    have hds : ds ≠ "" := parseDateYMD_ne_empty hp
    simp only [available_times, if_neg hds, hp, hh]
  · intro wd hwd
    unfold HOURS_BY_WEEKDAY
    split_ifs <;> simp <;> omega
  · intro y m d
    exact Nat.mod_lt _ (by norm_num)
  · intro y m d st en allSlots hp hh hg
    refine ⟨_, available_times_some db ds y m d st en allSlots hp hh hg, ?_, ?_⟩
    · intro slot
      simp only [List.mem_filter, List.contains, List.elem_eq_mem, Bool.not_eq_true',
        decide_eq_false_iff_not, List.mem_map, List.mem_filter, Bool.and_eq_true,
        decide_eq_true_eq, not_exists, not_and]
      aesop
    · exact List.Pairwise.sublist (List.filter_sublist _)
        (pairwise_timeLt_hours (pyWeekday y m d) st en allSlots hh hg)

/-- A one-row table: a scheduled 10:00 AM booking on Tuesday 2025-01-07. -/
def exDB1 : DB :=
  [{ id := 1, date := "2025-01-07", time := "10:00 AM", name := "Ada",
     service := "Cut", email := none, status := "Scheduled" }]

/-- Witness for C1 on 2025-01-07 (a Tuesday) with one scheduled booking. -/
theorem C1_available_times_witness :
    ∃ ts : List String, available_times exDB1 (some "2025-01-07") = some ts ∧
      (∀ slot, slot ∈ ts ↔ (slot ∈
        ["10:00 AM", "10:30 AM", "11:00 AM", "11:30 AM", "12:00 PM", "12:30 PM",
         "1:00 PM", "1:30 PM", "2:00 PM", "2:30 PM", "3:00 PM", "3:30 PM",
         "4:00 PM", "4:30 PM", "5:00 PM", "5:30 PM", "6:00 PM", "6:30 PM"] ∧
        ¬ ∃ b ∈ exDB1, b.date = "2025-01-07" ∧ b.time = slot ∧ b.status = "Scheduled")) ∧
      List.Pairwise (fun a b => timeLt a b = true) ts :=
  (C1_available_times exDB1 "2025-01-07").2.2.2.2.2 2025 1 7 "10:00 AM" "7:00 PM"
    ["10:00 AM", "10:30 AM", "11:00 AM", "11:30 AM", "12:00 PM", "12:30 PM",
     "1:00 PM", "1:30 PM", "2:00 PM", "2:30 PM", "3:00 PM", "3:30 PM",
     "4:00 PM", "4:30 PM", "5:00 PM", "5:30 PM", "6:00 PM", "6:30 PM"]
    (by decide) (by decide) (by decide)

/-! ## C3: every write keeps statuses within the three legal values -/

/-- The legal booking statuses. -/
def statusOK (s : String) : Prop :=
  s = "Scheduled" ∨ s = "Cancelled" ∨ s = "Completed"

instance (s : String) : Decidable (statusOK s) := by
  unfold statusOK
  infer_instance

theorem forall₂_map_self {α : Type} (g : α → α) (P : α → α → Prop) (l : List α)
    (h : ∀ b ∈ l, P (g b) b) : List.Forall₂ P (l.map g) l := by
  induction l with
  | nil => exact List.Forall₂.nil
  | cons a l ih =>
    exact List.Forall₂.cons (h a (by simp)) (ih (fun b hb => h b (by simp [hb])))

theorem cancelRow_cases (p : Booking → Bool) (b : Booking) :
    cancelRow p b = b ∨
      (b.status = "Scheduled" ∧ cancelRow p b = { b with status := "Cancelled" }) := by
  unfold cancelRow
  by_cases hc : p b && b.status = "Scheduled"
  · right
    rw [Bool.and_eq_true, decide_eq_true_eq] at hc
    exact ⟨hc.2, by rw [if_pos (by rw [Bool.and_eq_true, decide_eq_true_eq]; exact hc)]⟩
  · left
    rw [if_neg hc]

theorem completeRow_cases (bid : Nat) (b : Booking) :
    (if b.id = bid && b.status = "Scheduled" then { b with status := "Completed" } else b) = b ∨
      (b.status = "Scheduled" ∧
        (if b.id = bid && b.status = "Scheduled" then { b with status := "Completed" } else b) =
          { b with status := "Completed" }) := by
  by_cases hc : b.id = bid && b.status = "Scheduled"
  · right
    rw [Bool.and_eq_true, decide_eq_true_eq, decide_eq_true_eq] at hc
    exact ⟨hc.2, by rw [if_pos (by rw [Bool.and_eq_true]; simp [hc.1, hc.2])]⟩
  · left
    rw [if_neg hc]

/-- C3: `sb_insert_booking` appends exactly one `"Scheduled"` row;
`sb_cancel_by_details` and `sb_cancel_by_id` rewrite a row only when its
status is `"Scheduled"` and only to `"Cancelled"`; `sb_complete_by_id`
rewrites a row only when its status is `"Scheduled"` and only to
`"Completed"`; `sb_update_booking` never changes a status; hence every
operation keeps all statuses within the three legal values. -/
theorem C3_status_writes (db : DB) (d t n svc : String) (email : Option String)
    (nid bid : Nat) (hdb : ∀ b ∈ db, statusOK b.status) :
    (∃ r, sb_insert_booking db d t n svc email nid = db ++ [r] ∧ r.status = "Scheduled") ∧
    List.Forall₂ (fun b2 b => b2 = b ∨
        (b.status = "Scheduled" ∧ b2 = { b with status := "Cancelled" }))
      (sb_cancel_by_details db d t n svc).2 db ∧
    List.Forall₂ (fun b2 b => b2 = b ∨
        (b.status = "Scheduled" ∧ b2 = { b with status := "Cancelled" }))
      (sb_cancel_by_id db bid).2 db ∧
    List.Forall₂ (fun b2 b => b2 = b ∨
        (b.status = "Scheduled" ∧ b2 = { b with status := "Completed" }))
      (sb_complete_by_id db bid).2 db ∧
    List.Forall₂ (fun b2 b => b2.status = b.status)
      (sb_update_booking db bid n svc d t).2 db ∧
    (∀ b ∈ sb_insert_booking db d t n svc email nid, statusOK b.status) ∧
    (∀ b ∈ (sb_cancel_by_details db d t n svc).2, statusOK b.status) ∧
    (∀ b ∈ (sb_cancel_by_id db bid).2, statusOK b.status) ∧
    (∀ b ∈ (sb_complete_by_id db bid).2, statusOK b.status) ∧
    (∀ b ∈ (sb_update_booking db bid n svc d t).2, statusOK b.status) := by
  have hcd : List.Forall₂ (fun b2 b => b2 = b ∨
      (b.status = "Scheduled" ∧ b2 = { b with status := "Cancelled" }))
      (sb_cancel_by_details db d t n svc).2 db :=
    forall₂_map_self _ _ db (fun b _ => cancelRow_cases _ b)
  have hci : List.Forall₂ (fun b2 b => b2 = b ∨
      (b.status = "Scheduled" ∧ b2 = { b with status := "Cancelled" }))
      (sb_cancel_by_id db bid).2 db :=
    forall₂_map_self _ _ db (fun b _ => cancelRow_cases _ b)
  have hco : List.Forall₂ (fun b2 b => b2 = b ∨
      (b.status = "Scheduled" ∧ b2 = { b with status := "Completed" }))
      (sb_complete_by_id db bid).2 db :=
    forall₂_map_self _ _ db (fun b _ => completeRow_cases bid b)
  have hup : List.Forall₂ (fun b2 b => b2.status = b.status)
      (sb_update_booking db bid n svc d t).2 db := by
    unfold sb_update_booking
    by_cases hc : db.any (fun b =>
      b.date = d && b.time = t && b.status = "Scheduled" && b.id ≠ bid)
    · rw [if_pos hc]
      exact List.forall₂_same.mpr (fun b _ => rfl)
    · rw [if_neg hc]
      exact forall₂_map_self _ _ db (fun b _ => by by_cases hb : b.id = bid <;> simp [hb])
  have statusOK_map : ∀ (g : Booking → Booking),
      (∀ b, (g b).status = b.status ∨ (g b).status = "Cancelled" ∨
        (g b).status = "Completed") →
      ∀ b2 ∈ db.map g, statusOK b2.status := by
    intro g hg b2 hb2
    rw [List.mem_map] at hb2
    obtain ⟨b, hb, rfl⟩ := hb2
    rcases hg b with h | h | h
    · rw [h]; exact hdb b hb
    · right; left; exact h
    · right; right; exact h
  have hgcancel : ∀ (p : Booking → Bool) (b : Booking),
      (cancelRow p b).status = b.status ∨ (cancelRow p b).status = "Cancelled" ∨
        (cancelRow p b).status = "Completed" := by
    intro p b
    rcases cancelRow_cases p b with h | h
    · left; rw [h]
    · right; left; rw [h.2]
  have hgcomplete : ∀ b : Booking,
      ((if b.id = bid && b.status = "Scheduled" then { b with status := "Completed" }
        else b)).status = b.status ∨
      ((if b.id = bid && b.status = "Scheduled" then { b with status := "Completed" }
        else b)).status = "Cancelled" ∨
      ((if b.id = bid && b.status = "Scheduled" then { b with status := "Completed" }
        else b)).status = "Completed" := by
    intro b
    rcases completeRow_cases bid b with h | h
    · left; rw [h]
    · right; right; rw [h.2]
  refine ⟨⟨_, rfl, rfl⟩, hcd, hci, hco, hup, ?_, ?_, ?_, ?_, ?_⟩
  · intro b hb
    rw [sb_insert_booking, List.mem_append] at hb
    rcases hb with hb | hb
    · exact hdb b hb
    · left
      simp only [List.mem_singleton] at hb
      rw [hb]
  · exact statusOK_map _ (hgcancel _)
  · exact statusOK_map _ (hgcancel _)
  · exact statusOK_map _ hgcomplete
  · intro b2 hb2
    unfold sb_update_booking at hb2
    by_cases hc : db.any (fun b =>
      b.date = d && b.time = t && b.status = "Scheduled" && b.id ≠ bid)
    · rw [if_pos hc] at hb2
      exact hdb b2 hb2
    · rw [if_neg hc] at hb2
      refine statusOK_map _ ?_ b2 hb2
      intro b
      by_cases hbid : b.id = bid <;> simp [hbid]

/-- Witness for C3 on the one-row example table. -/
theorem C3_status_writes_witness :
    (∃ r, sb_insert_booking exDB1 "2025-01-08" "2:00 PM" "Bo" "Trim" none 2 =
        exDB1 ++ [r] ∧ r.status = "Scheduled") ∧
    List.Forall₂ (fun b2 b => b2 = b ∨
        (b.status = "Scheduled" ∧ b2 = { b with status := "Cancelled" }))
      (sb_cancel_by_details exDB1 "2025-01-08" "2:00 PM" "Bo" "Trim").2 exDB1 ∧
    List.Forall₂ (fun b2 b => b2 = b ∨
        (b.status = "Scheduled" ∧ b2 = { b with status := "Cancelled" }))
      (sb_cancel_by_id exDB1 1).2 exDB1 ∧
    List.Forall₂ (fun b2 b => b2 = b ∨
        (b.status = "Scheduled" ∧ b2 = { b with status := "Completed" }))
      (sb_complete_by_id exDB1 1).2 exDB1 ∧
    List.Forall₂ (fun b2 b => b2.status = b.status)
      (sb_update_booking exDB1 1 "Bo" "Trim" "2025-01-08" "2:00 PM").2 exDB1 ∧
    (∀ b ∈ sb_insert_booking exDB1 "2025-01-08" "2:00 PM" "Bo" "Trim" none 2,
      statusOK b.status) ∧
    (∀ b ∈ (sb_cancel_by_details exDB1 "2025-01-08" "2:00 PM" "Bo" "Trim").2,
      statusOK b.status) ∧
    (∀ b ∈ (sb_cancel_by_id exDB1 1).2, statusOK b.status) ∧
    (∀ b ∈ (sb_complete_by_id exDB1 1).2, statusOK b.status) ∧
    (∀ b ∈ (sb_update_booking exDB1 1 "Bo" "Trim" "2025-01-08" "2:00 PM").2,
      statusOK b.status) :=
  C3_status_writes exDB1 "2025-01-08" "2:00 PM" "Bo" "Trim" none 2 1 (by decide)

/-! ## C4: the `POST /book` responses -/

/-- Embeds `sb_slot_taken` answers exactly whether a `"Scheduled"` row occupies
the requested date and time. -/
theorem sb_slot_taken_iff (db : DB) (d t : String) :
    sb_slot_taken db d t = true ↔
      ∃ b ∈ db, b.date = d ∧ b.time = t ∧ b.status = "Scheduled" := by
  simp [sb_slot_taken, List.any_eq_true, Bool.and_eq_true, decide_eq_true_eq, and_assoc]

/-- C4: `POST /book` responds 400 "Missing fields" iff one of date, time,
name, service is empty after trimming; 400 "Time already booked" iff the
fields are present and a `"Scheduled"` row occupies the slot (and
`sb_slot_taken` decides exactly that); 500 iff the fields are present, the
slot free and the insert raises; the table is untouched on every error
path; and on success exactly one `"Scheduled"` row is appended and the
confirmation page is rendered. -/
theorem C4_book_post (form : BookForm) (db : DB) (insertRaises : Bool) (newId : Nat)
    (d t n svc em : String)
    (hd : d = pystrip (firstTruthy form.date form.appointment_date))
    (ht : t = pystrip (firstTruthy form.time form.appointment_time))
    (hn : n = pystrip (firstTruthy form.name form.client_name))
    (hs : svc = pystrip (firstTruthy form.service none))
    (he : em = pystrip (firstTruthy form.email form.client_email)) :
    ((book_post form db insertRaises newId).1 = .missingFields ↔
      (d = "" ∨ t = "" ∨ n = "" ∨ svc = "")) ∧
    ((book_post form db insertRaises newId).1 = .alreadyBooked ↔
      (¬(d = "" ∨ t = "" ∨ n = "" ∨ svc = "") ∧ sb_slot_taken db d t = true)) ∧
    (sb_slot_taken db d t = true ↔
      ∃ b ∈ db, b.date = d ∧ b.time = t ∧ b.status = "Scheduled") ∧
    ((book_post form db insertRaises newId).1 = .serverError ↔
      (¬(d = "" ∨ t = "" ∨ n = "" ∨ svc = "") ∧ sb_slot_taken db d t = false ∧
        insertRaises = true)) ∧
    ((book_post form db insertRaises newId).1 = .missingFields ∨
     (book_post form db insertRaises newId).1 = .alreadyBooked ∨
     (book_post form db insertRaises newId).1 = .serverError →
      (book_post form db insertRaises newId).2.1 = db) ∧
    (¬(d = "" ∨ t = "" ∨ n = "" ∨ svc = "") → sb_slot_taken db d t = false →
      insertRaises = false →
      (book_post form db insertRaises newId).1 = .confirmation d t n svc ∧
      (book_post form db insertRaises newId).2.1 = db ++
        [{ id := newId, date := d, time := t, name := n, service := svc,
           email := orNone (some em), status := "Scheduled" }]) := by
  have hb : book_post form db insertRaises newId =
      (if d = "" ∨ t = "" ∨ n = "" ∨ svc = "" then (.missingFields, db, false)
       else if sb_slot_taken db d t then (.alreadyBooked, db, false)
       else if insertRaises then (.serverError, db, false)
       else (.confirmation d t n svc, sb_insert_booking db d t n svc (some em) newId,
         true)) := by
    rw [book_post, ← hd, ← ht, ← hn, ← hs, ← he]
  by_cases hm : d = "" ∨ t = "" ∨ n = "" ∨ svc = ""
  · rw [if_pos hm] at hb
    rw [hb]
    exact ⟨by simp [hm], by simp [hm], sb_slot_taken_iff db d t, by simp [hm],
      fun _ => rfl, fun hnm => absurd hm hnm⟩
  · rw [if_neg hm] at hb
    by_cases hstk : sb_slot_taken db d t
    · rw [if_pos hstk] at hb
      rw [hb]
      exact ⟨by simp [hm], by simp [hm, hstk], sb_slot_taken_iff db d t,
        by simp [hm, hstk], fun _ => rfl, fun _ hfree => by rw [hstk] at hfree; cases hfree⟩
    · rw [if_neg hstk] at hb
      have hstk2 : sb_slot_taken db d t = false := by
        revert hstk; cases sb_slot_taken db d t <;> simp
      push_neg at hm
      by_cases hir : insertRaises
      · rw [if_pos hir] at hb
        rw [hb]
        refine ⟨by simp [hm], by simp [hstk2], sb_slot_taken_iff db d t,
          by simp [hm, hstk2, hir], fun _ => rfl,
          fun _ _ hirf => by rw [hirf] at hir; cases hir⟩
      · rw [if_neg hir] at hb
        rw [hb]
        have hir2 : insertRaises = false := by
          revert hir; cases insertRaises <;> simp
        refine ⟨by simp [hm], by simp [hstk2], sb_slot_taken_iff db d t,
          by simp [hir2], by simp, fun _ _ _ => ⟨rfl, rfl⟩⟩

/-- The booking form of the witness request. -/
def exForm : BookForm :=
  { date := some "2025-01-07", appointment_date := none,
    time := some " 10:00 AM ", appointment_time := none,
    name := some "Ada", client_name := none,
    service := some "Cut",
    email := some "", client_email := none }

/-- Witness for C4: a complete form (with whitespace around the time and an
empty email) on an empty table inserts one `"Scheduled"` row. -/
theorem C4_book_post_witness :
    (book_post exForm [] false 7).1 =
        .confirmation "2025-01-07" "10:00 AM" "Ada" "Cut" ∧
    (book_post exForm [] false 7).2.1 =
      [{ id := 7, date := "2025-01-07", time := "10:00 AM", name := "Ada",
         service := "Cut", email := orNone (some ""), status := "Scheduled" }] :=
  (C4_book_post exForm [] false 7 "2025-01-07" "10:00 AM" "Ada" "Cut" ""
    rfl rfl rfl rfl rfl).2.2.2.2.2 (by decide) (by decide) rfl

/-! ## C5: open hours are a static table, not tenant configuration -/

/-- Counterexample to C5: the slot hours cannot differ between tenants.
For every table, every pair of site slugs and every date, the
`/available_times` response is identical, because the route never consults
the slug (or `load_site`) at all. -/
theorem C5_hours_counterexample :
    ¬ ∃ (db : DB) (s1 s2 dateArg : Option String),
        available_times_route db s1 dateArg ≠ available_times_route db s2 dateArg :=
  fun ⟨_, _, _, _, h⟩ => h rfl

/-- C5 (amended): the tenant configuration `load_site` builds is keyed by
the slug, with the `businesses` row taking precedence over environment
variables; but the open hours are not part of it — `/available_times`
ignores the site argument entirely and always draws its hours from the
static module-level `HOURS_BY_WEEKDAY` table, so slot generation is
identical for every tenant. -/
theorem C5_hours_static_amended :
    (∀ (db : DB) (siteArg dateArg : Option String),
      available_times_route db siteArg dateArg = available_times db dateArg) ∧
    (∀ (businesses : List BizRow) (services : List ServiceRow)
       (reviews : List ReviewRow) (heros : List HeroRow) (env : SiteEnv) (slug : String),
      (load_site businesses services reviews heros env slug).slug = slug ∧
      (load_site businesses services reviews heros env slug).brandName =
        bizOr ((businesses.filter (fun b => b.slug = slug)).head?) BizRow.name
          (env.SALON_NAME.getD "HairDaze")) :=
  ⟨fun _ _ _ => rfl, fun _ _ _ _ _ _ => ⟨rfl, rfl⟩⟩

/-! ## C6: admin gating by session and CSRF token -/

/-- C6: `GET /admin` redirects to the login page whenever the session has
no `user_id`; and each admin API endpoint, when the session is logged in
but the `X-CSRF-Token` header differs from the session token, answers 403
`{"ok": false, "error": "csrf"}` and leaves the table untouched (and, for
cancel and complete, starts no email thread). -/
theorem C6_admin_gating (sess : SessionData) (db : DB) (start : Option String)
    (status : String) (hdr : Option String) (bid : Nat) (payload : UpdatePayload) :
    (sess.user_id = none → admin_get sess db start status = .redirectLogin) ∧
    (sessionLoggedIn sess = true → hdr ≠ sess.csrf →
      admin_api_cancel sess hdr bid db = (.csrfForbidden, db, none)) ∧
    (sessionLoggedIn sess = true → hdr ≠ sess.csrf →
      admin_api_complete sess hdr bid db = (.csrfForbidden, db, none)) ∧
    (sessionLoggedIn sess = true → hdr ≠ sess.csrf →
      admin_api_update sess hdr bid payload db = (.csrfForbidden, db)) := by
  refine ⟨?_, ?_, ?_, ?_⟩
  · intro h
    simp [admin_get, sessionLoggedIn, h]
  · intro hlog hne
    simp [admin_api_cancel, hlog, hne]
  · intro hlog hne
    simp [admin_api_complete, hlog, hne]
  · intro hlog hne
    simp [admin_api_update, hlog, hne]

/-- The JSON payload used by the C6 witness request. -/
def exPayload : UpdatePayload :=
  { name := some "Ada", service := some "Cut",
    date := some "2025-01-07", time := some "10:00 AM" }

/-- Witness for C6: an anonymous session is redirected, and a logged-in
session with a wrong CSRF header gets 403 with no table change on all
three endpoints. -/
theorem C6_admin_gating_witness :
    admin_get ⟨none, none⟩ exDB1 none "scheduled" = .redirectLogin ∧
    admin_api_cancel ⟨some 1, some "tok"⟩ (some "bad") 1 exDB1 =
      (.csrfForbidden, exDB1, none) ∧
    admin_api_complete ⟨some 1, some "tok"⟩ (some "bad") 1 exDB1 =
      (.csrfForbidden, exDB1, none) ∧
    admin_api_update ⟨some 1, some "tok"⟩ (some "bad") 1 exPayload exDB1 =
      (.csrfForbidden, exDB1) :=
  ⟨(C6_admin_gating ⟨none, none⟩ exDB1 none "scheduled" none 1 exPayload).1 rfl,
   (C6_admin_gating ⟨some 1, some "tok"⟩ exDB1 none "scheduled" (some "bad") 1
      exPayload).2.1 (by decide) (by decide),
   (C6_admin_gating ⟨some 1, some "tok"⟩ exDB1 none "scheduled" (some "bad") 1
      exPayload).2.2.1 (by decide) (by decide),
   (C6_admin_gating ⟨some 1, some "tok"⟩ exDB1 none "scheduled" (some "bad") 1
      exPayload).2.2.2 (by decide) (by decide)⟩

/-! ## C7: the email field is optional -/

/-- C7: `POST /book` accepts an empty email — with the other four fields
present it still books; `sb_insert_booking` stores `None` for an empty
email; and `send_booking_confirmation` returns `False` without handing
anything to SMTP whenever the appointment email is empty after
stripping. -/
theorem C7_email_optional (form : BookForm) (db : DB) (newId : Nat) (cfg : EmailCfg)
    (appt : ApptInfo) (d t n svc : String)
    (hd : d = pystrip (firstTruthy form.date form.appointment_date))
    (ht : t = pystrip (firstTruthy form.time form.appointment_time))
    (hn : n = pystrip (firstTruthy form.name form.client_name))
    (hs : svc = pystrip (firstTruthy form.service none))
    (hemail : pystrip (firstTruthy form.email form.client_email) = "")
    (hdne : d ≠ "") (htne : t ≠ "") (hnne : n ≠ "") (hsne : svc ≠ "")
    (hfree : sb_slot_taken db d t = false)
    (happt : pystrip (firstTruthy appt.email none) = "") :
    (book_post form db false newId).1 = .confirmation d t n svc ∧
    (book_post form db false newId).2.1 = db ++
      [{ id := newId, date := d, time := t, name := n, service := svc,
         email := none, status := "Scheduled" }] ∧
    (∀ em, (em = none ∨ em = some "") →
      ∃ r, sb_insert_booking db d t n svc em newId = db ++ [r] ∧ r.email = none) ∧
    send_booking_confirmation cfg appt = (false, none) := by
  have hb : book_post form db false newId =
      (if d = "" ∨ t = "" ∨ n = "" ∨ svc = "" then (.missingFields, db, false)
       else if sb_slot_taken db d t then (.alreadyBooked, db, false)
       else if false then (.serverError, db, false)
       else (.confirmation d t n svc,
         sb_insert_booking db d t n svc
           (some (pystrip (firstTruthy form.email form.client_email))) newId, true)) := by
    rw [book_post, ← hd, ← ht, ← hn, ← hs]
  rw [if_neg (by simp [hdne, htne, hnne, hsne]), hfree] at hb
  simp only [Bool.false_eq_true, if_false] at hb
  refine ⟨by rw [hb], ?_, ?_, ?_⟩
  · rw [hb]
    simp [sb_insert_booking, hemail, orNone]
  · intro em hem
    rcases hem with rfl | rfl
    · exact ⟨_, rfl, rfl⟩
    · exact ⟨_, rfl, by simp [orNone]⟩
  · by_cases hcn : cfg.sendCustomerNotifications <;>
      simp [send_booking_confirmation, hcn, happt]

/-- The appointment dict of the C7 witness (whitespace-only email). -/
def exAppt : ApptInfo :=
  { name := some "Ada", email := some "  ", service := some "Cut",
    date := some "2025-01-07", time := some "10:00 AM" }

/-- The email configuration of the C7 witness (everything enabled). -/
def exCfg : EmailCfg :=
  { emailEnabled := true, smtpHost := some "smtp.example.com",
    smtpUser := some "mailer", smtpPass := some "hunter2",
    fromEmail := some "salon@example.com", sendCustomerNotifications := true,
    salonName := "HairDaze", salonAddress := "414 E Walnut St" }

/-- Witness for C7: the witness form books with an empty email, the stored
row has `email = None`, and the confirmation sender declines the
whitespace-only address even with SMTP fully configured. -/
theorem C7_email_optional_witness :
    (book_post exForm [] false 7).1 = .confirmation "2025-01-07" "10:00 AM" "Ada" "Cut" ∧
    (book_post exForm [] false 7).2.1 =
      [{ id := 7, date := "2025-01-07", time := "10:00 AM", name := "Ada",
         service := "Cut", email := none, status := "Scheduled" }] ∧
    (∀ em, (em = none ∨ em = some "") →
      ∃ r, sb_insert_booking [] "2025-01-07" "10:00 AM" "Ada" "Cut" em 7 = [] ++ [r] ∧
        r.email = none) ∧
    send_booking_confirmation exCfg exAppt = (false, none) :=
  C7_email_optional exForm [] 7 exCfg exAppt "2025-01-07" "10:00 AM" "Ada" "Cut"
    rfl rfl rfl rfl rfl (by decide) (by decide) (by decide) (by decide) rfl (by decide)

/-! ## C8: only `"Scheduled"` rows block a slot -/

/-- A slot is free exactly when no `"Scheduled"` row occupies it. -/
theorem slot_taken_false_iff (db : DB) (ds tm : String) :
    sb_slot_taken db ds tm = false ↔
      ∀ b ∈ db, ¬(b.date = ds ∧ b.time = tm ∧ b.status = "Scheduled") := by
  rw [← Bool.not_eq_true, sb_slot_taken_iff]
  constructor
  · intro h b hb hc
    exact h ⟨b, hb, hc⟩
  · rintro h ⟨b, hb, hc⟩
    exact h b hb hc

/-- The cancel-row update never changes the id of a row. -/
theorem cancelRow_id (p : Booking → Bool) (b : Booking) : (cancelRow p b).id = b.id := by
  unfold cancelRow
  split <;> rfl

/-- Membership in the open-slot filter of `available_times`. -/
theorem mem_open_slots (db : DB) (ds slot : String) (allSlots : List String) :
    (slot ∈ allSlots.filter (fun s =>
        !(((db.filter (fun b => b.date = ds && b.status = "Scheduled")).map
            Booking.time).contains s))) ↔
      (slot ∈ allSlots ∧
        ¬ ∃ b ∈ db, b.date = ds ∧ b.time = slot ∧ b.status = "Scheduled") := by
  simp only [List.mem_filter, List.contains, List.elem_eq_mem, Bool.not_eq_true',
    decide_eq_false_iff_not, List.mem_map, List.mem_filter, Bool.and_eq_true,
    decide_eq_true_eq, not_exists, not_and]
  aesop

/-- C8: a slot is blocked only by `"Scheduled"` rows: once every scheduled
booking at a date and time has been cancelled or completed (here: all of
them carry the cancelled/completed id), `sb_slot_taken` answers false
again, and the slot reappears in the `/available_times` response. -/
theorem C8_only_scheduled_blocks (db : DB) (bid : Nat) (ds tm : String) (y m d : Nat)
    (st en : String) (allSlots : List String) :
    (sb_slot_taken db ds tm = false ↔
      ∀ b ∈ db, ¬(b.date = ds ∧ b.time = tm ∧ b.status = "Scheduled")) ∧
    ((∀ b ∈ db, b.date = ds → b.time = tm → b.status = "Scheduled" → b.id = bid) →
      sb_slot_taken (sb_cancel_by_id db bid).2 ds tm = false ∧
      sb_slot_taken (sb_complete_by_id db bid).2 ds tm = false) ∧
    ((∀ b ∈ db, ¬(b.date = ds ∧ b.time = tm ∧ b.status = "Scheduled")) →
      parseDateYMD ds = some (y, m, d) →
      HOURS_BY_WEEKDAY (pyWeekday y m d) = some (st, en) →
      generate_time_slots st en 30 = some allSlots →
      tm ∈ allSlots →
      ∃ ts, available_times db (some ds) = some ts ∧ tm ∈ ts) := by
  refine ⟨slot_taken_false_iff db ds tm, ?_, ?_⟩
  · intro honly
    constructor
    · rw [slot_taken_false_iff]
      intro b2 hb2
      have hb2m : b2 ∈ db.map (cancelRow (fun b => b.id = bid)) := hb2
      rw [List.mem_map] at hb2m
      obtain ⟨b, hb, rfl⟩ := hb2m
      rintro ⟨hbd, hbt, hbs⟩
      unfold cancelRow at hbd hbt hbs
      by_cases hc : (fun b : Booking => b.id = bid) b && b.status = "Scheduled"
      · rw [if_pos hc] at hbs
        simp at hbs
      · rw [if_neg hc] at hbd hbt hbs
        rw [Bool.and_eq_true, decide_eq_true_eq, decide_eq_true_eq] at hc
        exact hc ⟨honly b hb hbd hbt hbs, hbs⟩
    · rw [slot_taken_false_iff]
      intro b2 hb2
      have hb2m : b2 ∈ db.map (fun b =>
          if b.id = bid && b.status = "Scheduled" then { b with status := "Completed" }
          else b) := hb2
      rw [List.mem_map] at hb2m
      obtain ⟨b, hb, rfl⟩ := hb2m
      rintro ⟨hbd, hbt, hbs⟩
      by_cases hc : b.id = bid && b.status = "Scheduled"
      · rw [if_pos hc] at hbs
        simp at hbs
      · rw [if_neg hc] at hbd hbt hbs
        rw [Bool.and_eq_true, decide_eq_true_eq, decide_eq_true_eq] at hc
        exact hc ⟨honly b hb hbd hbt hbs, hbs⟩
  · intro hfree hp hh hg
    intro htm
    refine ⟨_, available_times_some db ds y m d st en allSlots hp hh hg, ?_⟩
    rw [mem_open_slots]
    refine ⟨htm, ?_⟩
    rintro ⟨b, hb, hbd, hbt, hbs⟩
    exact hfree b hb ⟨hbd, hbt, hbs⟩

/-- Witness for C8: after the admin cancels booking 1, the 10:00 AM slot
of 2025-01-07 is free again and listed by `/available_times`. -/
theorem C8_only_scheduled_blocks_witness :
    (sb_slot_taken exDB1 "2025-01-07" "10:00 AM" = false ↔
      ∀ b ∈ exDB1, ¬(b.date = "2025-01-07" ∧ b.time = "10:00 AM" ∧
        b.status = "Scheduled")) ∧
    (sb_slot_taken (sb_cancel_by_id exDB1 1).2 "2025-01-07" "10:00 AM" = false ∧
     sb_slot_taken (sb_complete_by_id exDB1 1).2 "2025-01-07" "10:00 AM" = false) ∧
    (∃ ts, available_times (sb_cancel_by_id exDB1 1).2 (some "2025-01-07") = some ts ∧
      "10:00 AM" ∈ ts) := by
  obtain ⟨h1, h2, _⟩ := C8_only_scheduled_blocks exDB1 1 "2025-01-07" "10:00 AM"
    2025 1 7 "10:00 AM" "7:00 PM"
    ["10:00 AM", "10:30 AM", "11:00 AM", "11:30 AM", "12:00 PM", "12:30 PM",
     "1:00 PM", "1:30 PM", "2:00 PM", "2:30 PM", "3:00 PM", "3:30 PM",
     "4:00 PM", "4:30 PM", "5:00 PM", "5:30 PM", "6:00 PM", "6:30 PM"]
  obtain ⟨_, _, h3⟩ := C8_only_scheduled_blocks (sb_cancel_by_id exDB1 1).2 1
    "2025-01-07" "10:00 AM" 2025 1 7 "10:00 AM" "7:00 PM"
    ["10:00 AM", "10:30 AM", "11:00 AM", "11:30 AM", "12:00 PM", "12:30 PM",
     "1:00 PM", "1:30 PM", "2:00 PM", "2:30 PM", "3:00 PM", "3:30 PM",
     "4:00 PM", "4:30 PM", "5:00 PM", "5:30 PM", "6:00 PM", "6:30 PM"]
  exact ⟨h1, h2 (by decide), h3 (by decide) (by decide) (by decide) (by decide) (by decide)⟩

/-! ## C9: `changed` reports the post-state, not this call's effect -/

/-- The complete-row update never changes the id of a row. -/
theorem completeRow_id (bid : Nat) (b : Booking) :
    (if b.id = bid && b.status = "Scheduled" then { b with status := "Completed" }
      else b).id = b.id := by
  split <;> rfl

/-- Fetching after the cancel update fetches the image of the old row. -/
theorem fetch_after_cancel (db : DB) (bid : Nat) :
    fetch_booking (db.map (cancelRow (fun b => b.id = bid))) bid =
      (db.find? (fun b => b.id = bid)).map (cancelRow (fun b => b.id = bid)) := by
  unfold fetch_booking
  rw [List.find?_map]
  have hpred : ((fun b : Booking => decide (b.id = bid)) ∘
      cancelRow (fun b => decide (b.id = bid))) = fun b : Booking => decide (b.id = bid) := by
    funext b
    show decide ((cancelRow (fun b => decide (b.id = bid)) b).id = bid) = decide (b.id = bid)
    rw [cancelRow_id]
  rw [hpred]

/-- Fetching after the complete update fetches the image of the old row. -/
theorem fetch_after_complete (db : DB) (bid : Nat) :
    fetch_booking (db.map (fun b =>
        if b.id = bid && b.status = "Scheduled" then { b with status := "Completed" }
        else b)) bid =
      (db.find? (fun b => b.id = bid)).map (fun b =>
        if b.id = bid && b.status = "Scheduled" then { b with status := "Completed" }
        else b) := by
  unfold fetch_booking
  rw [List.find?_map]
  have hpred : ((fun b : Booking => decide (b.id = bid)) ∘ fun b : Booking =>
      if b.id = bid && b.status = "Scheduled" then { b with status := "Completed" }
      else b) = fun b : Booking => decide (b.id = bid) := by
    funext b
    show decide ((if b.id = bid && b.status = "Scheduled" then { b with status := "Completed" }
      else b).id = bid) = decide (b.id = bid)
    rw [completeRow_id]
  rw [hpred]

/-- C9: `sb_cancel_by_id` (and `sb_complete_by_id`) reports `changed = true`
exactly when the fetched row exists with post-state `"Cancelled"`
(`"Completed"`), not when this call modified it; consequently, invoking the
admin cancel endpoint twice on a booking that was scheduled reports
`changed = true` both times and starts the cancellation-email thread both
times. -/
theorem C9_changed_semantics (db : DB) (bid : Nat) (sess : SessionData)
    (hdr : Option String) :
    ((sb_cancel_by_id db bid).1.1 = true ↔
      ∃ r, (sb_cancel_by_id db bid).1.2 = some r ∧ r.status = "Cancelled") ∧
    ((sb_complete_by_id db bid).1.1 = true ↔
      ∃ r, (sb_complete_by_id db bid).1.2 = some r ∧ r.status = "Completed") ∧
    (sessionLoggedIn sess = true → hdr = sess.csrf →
     (∀ b ∈ db, b.id = bid → b.status = "Scheduled") →
     (∃ b ∈ db, b.id = bid) →
     ∃ r1 db1 r2 db2,
       admin_api_cancel sess hdr bid db = (.okChanged true, db1, some r1) ∧
       admin_api_cancel sess hdr bid db1 = (.okChanged true, db2, some r2)) := by
  refine ⟨?_, ?_, ?_⟩
  · simp only [sb_cancel_by_id]
    cases hf : fetch_booking (db.map (cancelRow (fun b => b.id = bid))) bid with
    | none => simp
    | some r => simp
  · simp only [sb_complete_by_id]
    cases hf : fetch_booking (db.map (fun b =>
        if b.id = bid && b.status = "Scheduled" then { b with status := "Completed" }
        else b)) bid with
    | none => simp
    | some r => simp
  · intro hlog hcs hsched hex
    obtain ⟨bx, hbx, hbxid⟩ := hex
    have hfs : (db.find? (fun b => b.id = bid)).isSome :=
      List.find?_isSome.mpr ⟨bx, hbx, by simp [hbxid]⟩
    obtain ⟨b0, hb0⟩ := Option.isSome_iff_exists.mp hfs
    have hb0mem : b0 ∈ db := List.mem_of_find?_eq_some hb0
    have hb0id : b0.id = bid := by
      have := List.find?_some hb0
      simpa using this
    have hb0st : b0.status = "Scheduled" := hsched b0 hb0mem hb0id
    have hr1 : cancelRow (fun b => b.id = bid) b0 = { b0 with status := "Cancelled" } := by
      unfold cancelRow
      rw [if_pos]
      rw [Bool.and_eq_true]
      exact ⟨by simp [hb0id], by simp [hb0st]⟩
    have hfetch1 : fetch_booking (db.map (cancelRow (fun b => b.id = bid))) bid =
        some { b0 with status := "Cancelled" } := by
      rw [fetch_after_cancel, hb0]
      exact congrArg some hr1
    have hcall1 : sb_cancel_by_id db bid =
        ((true, some { b0 with status := "Cancelled" }),
          db.map (cancelRow (fun b => b.id = bid))) := by
      simp only [sb_cancel_by_id, hfetch1]
      simp
    have hfind1 : (db.map (cancelRow (fun b => b.id = bid))).find?
        (fun b => b.id = bid) = some { b0 with status := "Cancelled" } := hfetch1
    have hr2 : cancelRow (fun b => b.id = bid) { b0 with status := "Cancelled" } =
        { b0 with status := "Cancelled" } := by
      unfold cancelRow
      rw [if_neg]
      simp
    have hfetch2 : fetch_booking ((db.map (cancelRow (fun b => b.id = bid))).map
        (cancelRow (fun b => b.id = bid))) bid = some { b0 with status := "Cancelled" } := by
      rw [fetch_after_cancel, hfind1]
      exact congrArg some hr2
    have hcall2 : sb_cancel_by_id (db.map (cancelRow (fun b => b.id = bid))) bid =
        ((true, some { b0 with status := "Cancelled" }),
          (db.map (cancelRow (fun b => b.id = bid))).map
            (cancelRow (fun b => b.id = bid))) := by
      simp only [sb_cancel_by_id, hfetch2]
      simp
    refine ⟨{ b0 with status := "Cancelled" }, db.map (cancelRow (fun b => b.id = bid)),
      { b0 with status := "Cancelled" },
      (db.map (cancelRow (fun b => b.id = bid))).map (cancelRow (fun b => b.id = bid)),
      ?_, ?_⟩
    · simp only [admin_api_cancel, hlog, hcs, hcall1]
      simp
    · simp only [admin_api_cancel, hlog, hcs, hcall2]
      simp

/-- Witness for C9: cancelling booking 1 twice through the admin endpoint
reports `changed = true` both times and hands the row to the email thread
both times. -/
theorem C9_changed_semantics_witness :
    ((sb_cancel_by_id exDB1 1).1.1 = true ↔
      ∃ r, (sb_cancel_by_id exDB1 1).1.2 = some r ∧ r.status = "Cancelled") ∧
    (∃ r1 db1 r2 db2,
      admin_api_cancel ⟨some 1, some "tok"⟩ (some "tok") 1 exDB1 =
        (.okChanged true, db1, some r1) ∧
      admin_api_cancel ⟨some 1, some "tok"⟩ (some "tok") 1 db1 =
        (.okChanged true, db2, some r2)) := by
  obtain ⟨h1, _, h3⟩ := C9_changed_semantics exDB1 1 ⟨some 1, some "tok"⟩ (some "tok")
  exact ⟨h1, h3 (by decide) rfl (by decide) ⟨exDB1.head (by decide), by decide, by decide⟩⟩

/-! ## C10: `sb_update_booking` writes only name/service/date/time -/

/-- C10: `sb_update_booking` fails (with exactly the clash message and no
table change) iff a different `"Scheduled"` row occupies the new date and
time — there is no open-hours or format validation; otherwise it rewrites
only the name, service, date and time of the rows with the target id,
regardless of their current status, leaving every status and email (and
every other row) unchanged. -/
theorem C10_update_frame (db : DB) (bid : Nat) (n svc d t : String) :
    ((sb_update_booking db bid n svc d t).1.2 = some "That time is already booked" ↔
      ∃ b ∈ db, b.date = d ∧ b.time = t ∧ b.status = "Scheduled" ∧ b.id ≠ bid) ∧
    ((sb_update_booking db bid n svc d t).1.2 = none ∨
     (sb_update_booking db bid n svc d t).1.2 = some "That time is already booked") ∧
    ((sb_update_booking db bid n svc d t).1.2 ≠ none →
      (sb_update_booking db bid n svc d t).2 = db) ∧
    ((sb_update_booking db bid n svc d t).1.2 = none →
      (sb_update_booking db bid n svc d t).2 = db.map (fun b =>
        if b.id = bid then { b with name := n, service := svc, date := d, time := t }
        else b)) ∧
    List.Forall₂ (fun b2 b => b2.status = b.status ∧ b2.email = b.email ∧ b2.id = b.id ∧
        (b.id ≠ bid → b2 = b) ∧
        ((sb_update_booking db bid n svc d t).1.2 = none → b.id = bid →
          b2 = { b with name := n, service := svc, date := d, time := t }))
      (sb_update_booking db bid n svc d t).2 db := by
  unfold sb_update_booking
  by_cases hc : db.any (fun b =>
    b.date = d && b.time = t && b.status = "Scheduled" && b.id ≠ bid)
  · rw [if_pos hc]
    refine ⟨?_, Or.inr rfl, fun _ => rfl, fun h => by simp at h, ?_⟩
    · simp only [List.any_eq_true, Bool.and_eq_true, decide_eq_true_eq] at hc
      refine iff_of_true rfl ?_
      obtain ⟨b, hb, ⟨⟨h1, h2⟩, h3⟩, h4⟩ := hc
      exact ⟨b, hb, h1, h2, h3, h4⟩
    · refine List.forall₂_same.mpr (fun b _ => ⟨rfl, rfl, rfl, fun _ => rfl, ?_⟩)
      intro h
      simp at h
  · rw [if_neg hc]
    refine ⟨?_, Or.inl rfl, fun h => absurd rfl h, fun _ => rfl, ?_⟩
    · refine iff_of_false (fun h => Option.noConfusion h) ?_
      rintro ⟨b, hb, h1, h2, h3, h4⟩
      refine hc ?_
      simp only [List.any_eq_true, Bool.and_eq_true, decide_eq_true_eq]
      exact ⟨b, hb, ⟨⟨h1, h2⟩, h3⟩, h4⟩
    · refine forall₂_map_self _ _ db (fun b _ => ?_)
      by_cases hbid : b.id = bid
      · rw [if_pos hbid]
        exact ⟨rfl, rfl, rfl, fun hne => absurd hbid hne, fun _ _ => rfl⟩
      · rw [if_neg hbid]
        exact ⟨rfl, rfl, rfl, fun _ => rfl, fun _ h => absurd h hbid⟩

/-- A one-row table whose booking 1 is already `"Completed"`. -/
def exDB2 : DB :=
  [{ id := 1, date := "2025-01-07", time := "10:00 AM", name := "Ada",
     service := "Cut", email := some "ada@example.com", status := "Completed" }]

/-- Witness for C10: updating a `"Completed"` booking to a malformed date
and time succeeds (no validation, status and email untouched). -/
theorem C10_update_frame_witness :
    (sb_update_booking exDB2 1 "Bo" "Perm" "not-a-date" "25:99").1.2 = none ∧
    (sb_update_booking exDB2 1 "Bo" "Perm" "not-a-date" "25:99").2 =
      [{ id := 1, date := "not-a-date", time := "25:99", name := "Bo",
         service := "Perm", email := some "ada@example.com", status := "Completed" }] := by
  obtain ⟨h1, h2, _, h4, _⟩ := C10_update_frame exDB2 1 "Bo" "Perm" "not-a-date" "25:99"
  have hnone : (sb_update_booking exDB2 1 "Bo" "Perm" "not-a-date" "25:99").1.2 = none := by
    rcases h2 with h | h
    · exact h
    · obtain ⟨b, hb, _, _, hbs, _⟩ := h1.mp h
      simp only [exDB2, List.mem_singleton] at hb
      rw [hb] at hbs
      exact absurd hbs (by decide)
  exact ⟨hnone, by rw [h4 hnone]; rfl⟩

end HairDaze
